import Mathlib

/-!
Verification of `src/navit/traffic/dummy/traffic_dummy.c`, the dummy traffic
plugin of the navit navigation system.

The plugin keeps one piece of mutable state, a call counter
`reports_requested` (a 32-bit C `int`, modelled here as a raw bit pattern
`Nat < 2^32` incremented modulo `2^32`), and its report generator
`traffic_dummy_get_messages` returns a fixed batch of two messages on the
call that brings the counter to 1, an update/cancellation pair on the call
that brings it to 11, and `NULL` otherwise.

The host-side value constructors (`traffic_point_new`,
`traffic_location_new`, `traffic_message_new_single_event`,
`traffic_message_new_cancellation`, the plugin registry) live in
`traffic.h` / `plugin.h` of the repository, which are not part of the
supplied source; they are modelled from the specification's data model.
The clock (`time(NULL)`) is injected as an explicit parameter: the source
reads the wall clock several times inside one invocation, and the spec
treats all those reads as one value "now" per call.
-/

namespace TrafficDummy

/-- Modelled from the spec: the opaque host application context
(`struct navit`); no field of it is read by this plugin. -/
structure navit where
deriving DecidableEq

/-- Modelled from the spec: an opaque host attribute (`struct attr`);
passed to the constructor and ignored by this plugin. -/
structure attr where
deriving DecidableEq

/-- Modelled from the spec: an opaque host callback list
(`struct callback_list`); passed to the constructor and ignored. -/
structure callback_list where
deriving DecidableEq

/-- Modelled from the spec: the directionality classifier of a traffic
location (`enum location_dir` of `traffic.h`). -/
inductive location_dir where
  | location_dir_one
  | location_dir_both
deriving DecidableEq

/-- Modelled from the spec: the fuzziness classifier of a traffic
location (`enum location_fuzziness` of `traffic.h`). -/
inductive location_fuzziness where
  | location_fuzziness_none
  | location_fuzziness_low_res
deriving DecidableEq

/-- Modelled from the spec: the ramp classifier of a traffic location
(`enum location_ramps` of `traffic.h`). -/
inductive location_ramps where
  | location_ramps_none
  | location_ramps_all
deriving DecidableEq

/-- Modelled from the spec: the road-type classifier (`enum item_type`);
only the value used by this plugin plus a default are included. -/
inductive item_type where
  | type_none
  | type_highway_land
deriving DecidableEq

/-- Modelled from the spec: the event class of a traffic message
(`enum event_class` of `traffic.h`). -/
inductive event_class where
  | event_class_invalid
  | event_class_congestion
deriving DecidableEq

/-- Modelled from the spec: the event sub-type of a traffic message
(`enum event_type` of `traffic.h`). -/
inductive event_type where
  | event_invalid
  | event_congestion_queue
  | event_congestion_slow_traffic
deriving DecidableEq

/-- Modelled from the spec: a traffic point — a named geographic location:
coordinate (longitude, latitude), display name, junction/exit identifier
and location-table identifier.  The coordinates are literal constants that
are only stored and compared, never computed with, so they are modelled as
exact rationals. -/
structure traffic_point where
  lon : ℚ
  lat : ℚ
  junction_name : String
  junction_ref : String
  tmc_id : String
deriving DecidableEq

/-- Modelled from the spec: the host point constructor
`traffic_point_new(lon, lat, junction_name, junction_ref, tmc_id)`. -/
def traffic_point_new (lon lat : ℚ) (junction_name junction_ref tmc_id : String) :
    traffic_point :=
  { lon := lon, lat := lat, junction_name := junction_name,
    junction_ref := junction_ref, tmc_id := tmc_id }

/-- Modelled from the spec: a traffic location — a from-point and a
to-point, bundled with a directionality flag, fuzziness / ramp / road-type
classifiers, names and a location-table reference.  Optional (`NULL`able)
arguments of the C constructor are `Option`s. -/
structure traffic_location where
  at_point : Option traffic_point
  from_point : traffic_point
  to_point : traffic_point
  destination : String
  direction : Option String
  directionality : location_dir
  fuzziness : location_fuzziness
  ramps : location_ramps
  road_type : item_type
  road_name : Option String
  road_ref : String
  tmc_table : String
  tmc_direction : Int
deriving DecidableEq

/-- Modelled from the spec: the host location constructor
`traffic_location_new(at, from, to, destination, direction, directionality,
fuzziness, ramps, road_type, road_name, road_ref, tmc_table,
tmc_direction)`. -/
def traffic_location_new (at_point : Option traffic_point)
    (from_point to_point : traffic_point) (destination : String)
    (direction : Option String) (directionality : location_dir)
    (fuzziness : location_fuzziness) (ramps : location_ramps)
    (road_type : item_type) (road_name : Option String)
    (road_ref tmc_table : String) (tmc_direction : Int) : traffic_location :=
  { at_point := at_point, from_point := from_point, to_point := to_point,
    destination := destination, direction := direction,
    directionality := directionality, fuzziness := fuzziness, ramps := ramps,
    road_type := road_type, road_name := road_name, road_ref := road_ref,
    tmc_table := tmc_table, tmc_direction := tmc_direction }

/-- Modelled from the spec: a traffic message — a stable external
identifier, first-received / last-updated / expiration timestamps, a
forecast flag, a referenced location, and either an event classification
pair (normal report) or a cancellation marker with no event
classification. -/
structure traffic_message where
  id : String
  receive_time : Int
  update_time : Int
  expiration_time : Int
  is_cancellation : Bool
  is_forecast : Int
  location : traffic_location
  events : List (event_class × event_type)
deriving DecidableEq

/-- Modelled from the spec: the host message constructor
`traffic_message_new_single_event(id, receive_time, update_time,
expiration_time, is_forecast, location, event_class, type)`. -/
def traffic_message_new_single_event (id : String)
    (receive_time update_time expiration_time : Int) (is_forecast : Int)
    (location : traffic_location) (cls : event_class) (ty : event_type) :
    traffic_message :=
  { id := id, receive_time := receive_time, update_time := update_time,
    expiration_time := expiration_time, is_cancellation := false,
    is_forecast := is_forecast, location := location, events := [(cls, ty)] }

/-- Modelled from the spec: the host cancellation constructor
`traffic_message_new_cancellation(id, receive_time, update_time,
expiration_time, location)` — it carries no event classification. -/
def traffic_message_new_cancellation (id : String)
    (receive_time update_time expiration_time : Int)
    (location : traffic_location) : traffic_message :=
  { id := id, receive_time := receive_time, update_time := update_time,
    expiration_time := expiration_time, is_cancellation := true,
    is_forecast := 0, location := location, events := [] }

/-- `2^32`: the modulus of the 32-bit machine integer holding the call
counter `reports_requested`. -/
def INT32_MOD : Nat := 4294967296

/-- The signed value of a raw 32-bit pattern (two's complement): this is
the value the C `switch` statement compares against its `case` labels. -/
def int32_val (c : Nat) : Int :=
  if c < 2147483648 then (c : Int) else (c : Int) - 4294967296

/-- The plugin instance state `struct traffic_priv`: the navit instance
pointer (never assigned by this plugin, hence `Option`, `none` after the
zeroing allocation) and the call counter `reports_requested`, a 32-bit
`int` stored as its raw bit pattern. -/
structure traffic_priv where
  nav : Option navit
  reports_requested : Nat
deriving DecidableEq

/-- `g_new0(struct traffic_message *, n)`: a zero-initialised array of `n`
message pointers, i.e. `n` times `NULL`. -/
def g_new0_messages (n : Nat) : List (Option traffic_message) :=
  List.replicate n none

/-- `traffic_dummy_get_messages` of `traffic_dummy.c`: increments the call
counter (32-bit wrap), then switches on its (signed) value: case 1 emits
the initial A9 / A96 batch, case 11 emits the A9 update and the A96
cancellation, the default case returns `NULL` (modelled `none`).  The
clock value `now` stands for `time(NULL)` at call time; the mutated
instance is returned alongside the result. -/
def traffic_dummy_get_messages (now : Int) (this_ : traffic_priv) :
    traffic_priv × Option (List (Option traffic_message)) :=
  let this2 : traffic_priv :=
    { this_ with reports_requested := (this_.reports_requested + 1) % INT32_MOD }
  if int32_val this2.reports_requested = 1 then
    let messages := g_new0_messages 3
    let fromP := traffic_point_new 11.6208 48.3164 "Neufahrn" "68" "12732-4"
    let toP := traffic_point_new 11.5893 48.429 "Allershausen" "67" "12732"
    let location := traffic_location_new none fromP toP "Nürnberg" none
        location_dir.location_dir_one location_fuzziness.location_fuzziness_low_res
        location_ramps.location_ramps_none item_type.type_highway_land none
        "A9" "58:1" (-1)
    let messages := messages.set 0 (some (traffic_message_new_single_event
        "dummy:A9-68-67" now now (now + 20) 0 location
        event_class.event_class_congestion event_type.event_congestion_queue))
    let fromP := traffic_point_new 11.4481 48.1266 "Gräfelfing" "36b" "12961-2"
    let toP := traffic_point_new 11.5028 48.1258 "München-Laim" "38" "12961"
    let location := traffic_location_new none fromP toP "München" none
        location_dir.location_dir_one location_fuzziness.location_fuzziness_low_res
        location_ramps.location_ramps_none item_type.type_highway_land none
        "A96" "58:1" (-1)
    let messages := messages.set 1 (some (traffic_message_new_single_event
        "dummy:A96-36b-38" now now (now + 20) 0 location
        event_class.event_class_congestion event_type.event_congestion_slow_traffic))
    (this2, some messages)
  else if int32_val this2.reports_requested = 11 then
    let messages := g_new0_messages 3
    let fromP := traffic_point_new 11.6208 48.3164 "Neufahrn" "68" "12732-4"
    let toP := traffic_point_new 11.5893 48.429 "Allershausen" "67" "12732"
    let location := traffic_location_new none fromP toP "Nürnberg" none
        location_dir.location_dir_one location_fuzziness.location_fuzziness_low_res
        location_ramps.location_ramps_none item_type.type_highway_land none
        "A9" "58:1" (-1)
    let messages := messages.set 0 (some (traffic_message_new_single_event
        "dummy:A9-68-67" (now - 10) now (now + 10) 0 location
        event_class.event_class_congestion event_type.event_congestion_queue))
    let fromP := traffic_point_new 11.4481 48.1266 "Gräfelfing" "36b" "12961-2"
    let toP := traffic_point_new 11.5028 48.1258 "München-Laim" "38" "12961"
    let location := traffic_location_new none fromP toP "München" none
        location_dir.location_dir_one location_fuzziness.location_fuzziness_low_res
        location_ramps.location_ramps_none item_type.type_highway_land none
        "A96" "58:1" (-1)
    let messages := messages.set 1 (some (traffic_message_new_cancellation
        "dummy:A96-36b-38" (now - 10) now (now + 10) location))
    (this2, some messages)
  else
    (this2, none)

/-- The method table `struct traffic_methods` exposed by the plugin: its
single operation is the report generator. -/
structure traffic_methods where
  get_messages : Int → traffic_priv → traffic_priv × Option (List (Option traffic_message))

/-- `traffic_dummy_meth` of `traffic_dummy.c`: the method table holding
`traffic_dummy_get_messages`. -/
def traffic_dummy_meth : traffic_methods :=
  { get_messages := traffic_dummy_get_messages }

/-- `traffic_dummy_new` of `traffic_dummy.c`: allocates a zeroed
`traffic_priv` (`g_new0`: counter 0, navit pointer `NULL`), stores the
method table through the output parameter `meth` (modelled as the second
component of the returned pair) and returns the instance. -/
def traffic_dummy_new (nav : navit) (attrs : List attr) (cbl : callback_list) :
    traffic_priv × traffic_methods :=
  ({ nav := none, reports_requested := 0 }, traffic_dummy_meth)

/-- The host's category-keyed traffic-plugin registry: a map from plugin
names to constructor functions. -/
abbrev traffic_registry :=
  List (String × (navit → List attr → callback_list → traffic_priv × traffic_methods))

/-- Modelled from the spec: the host registration entry point
`plugin_register_category_traffic(name, ctor)`, which records the mapping
`name ↦ ctor` in the traffic-plugin registry. -/
def plugin_register_category_traffic (name : String)
    (ctor : navit → List attr → callback_list → traffic_priv × traffic_methods)
    (reg : traffic_registry) : traffic_registry :=
  (name, ctor) :: reg

/-- `plugin_init` of `traffic_dummy.c`: registers `traffic_dummy_new`
under the name `"dummy"` and does nothing else. -/
def plugin_init (reg : traffic_registry) : traffic_registry :=
  plugin_register_category_traffic "dummy" traffic_dummy_new reg

/-- The instance state after `k` invocations of the report generator,
where invocation `i` happens at clock value `clock i`. -/
def state_after (clock : Nat → Int) (st : traffic_priv) : Nat → traffic_priv
  | 0 => st
  | k + 1 => (traffic_dummy_get_messages (clock (k + 1)) (state_after clock st k)).1

/-- The result of the `k`-th invocation (`k ≥ 1`) of the report generator
on an instance that started in state `st`, under the clock `clock`. -/
def nth_call_result (clock : Nat → Int) (st : traffic_priv) (k : Nat) :
    Option (List (Option traffic_message)) :=
  (traffic_dummy_get_messages (clock k) (state_after clock st (k - 1))).2

/-! ### Helper lemmas -/

/-- Whatever branch the switch takes, the returned instance state is the
input state with the counter incremented modulo `2^32`. -/
lemma get_messages_fst (now : Int) (p : traffic_priv) :
    (traffic_dummy_get_messages now p).1 =
      { p with reports_requested := (p.reports_requested + 1) % INT32_MOD } := by
  simp only [traffic_dummy_get_messages]
  split
  · rfl
  · split
    · rfl
    · rfl

/-- Iterating the generator from a raw counter value `c < 2^32` leaves the
navit pointer alone and advances the counter to `(c + k) % 2^32`. -/
lemma state_after_mod (clock : Nat → Int) (nv : Option navit) (c : Nat)
    (hc : c < INT32_MOD) (k : Nat) :
    state_after clock ⟨nv, c⟩ k = ⟨nv, (c + k) % INT32_MOD⟩ := by
  induction k with
  | zero => simp [state_after, Nat.mod_eq_of_lt hc]
  | succ k ih =>
      rw [state_after, ih, get_messages_fst]
      simp only [INT32_MOD] at *
      congr 1
      omega

/-- The `switch` compares the signed value of the counter; below the wrap
this agrees with comparing the raw value. -/
lemma int32_val_eq_iff (n m : Nat) (hn : n < 4294967296) (hm : m < 2147483648) :
    int32_val n = (m : Int) ↔ n = m := by
  unfold int32_val
  split <;> omega

/-- The default branch: if the incremented counter is neither 1 nor 11
(as a signed value), the generator returns `NULL`. -/
lemma get_messages_snd_default (now : Int) (p : traffic_priv)
    (h1 : ¬ int32_val ((p.reports_requested + 1) % INT32_MOD) = 1)
    (h11 : ¬ int32_val ((p.reports_requested + 1) % INT32_MOD) = 11) :
    (traffic_dummy_get_messages now p).2 = none := by
  simp only [traffic_dummy_get_messages]
  rw [if_neg h1, if_neg h11]

/-- Case 1 of the switch produces a (non-`NULL`) batch. -/
lemma get_messages_at_zero_isSome (now : Int) (nv : Option navit) :
    ((traffic_dummy_get_messages now ⟨nv, 0⟩).2).isSome = true := rfl

/-- Case 11 of the switch produces a (non-`NULL`) batch. -/
lemma get_messages_at_ten_isSome (now : Int) (nv : Option navit) :
    ((traffic_dummy_get_messages now ⟨nv, 10⟩).2).isSome = true := rfl

/-- The 11th call on a fresh instance evaluates the generator on the
counter value 10. -/
lemma eleventh_call_fresh (clock : Nat → Int) :
    nth_call_result clock ⟨none, 0⟩ 11 =
      (traffic_dummy_get_messages (clock 11) ⟨none, 10⟩).2 := by
  show (traffic_dummy_get_messages (clock 11)
    (state_after clock ⟨none, 0⟩ 10)).2 = _
  rw [state_after_mod clock none 0 (by norm_num [INT32_MOD]) 10]
  norm_num [INT32_MOD]

/-- A call on a fresh instance whose predecessor count is 0 modulo `2^32`
(the 1st call, the `2^32 + 1`-st call, …) takes case 1 of the switch and
returns a batch. -/
lemma nth_call_one_mod (clock : Nat → Int) (k : Nat)
    (hk : (k - 1) % INT32_MOD = 0) :
    nth_call_result clock ⟨none, 0⟩ k ≠ none := by
  show (traffic_dummy_get_messages (clock k)
    (state_after clock ⟨none, 0⟩ (k - 1))).2 ≠ none
  rw [state_after_mod clock none 0 (by norm_num [INT32_MOD]) (k - 1),
    show ((0 + (k - 1)) % INT32_MOD : Nat) = 0 from by rw [Nat.zero_add, hk]]
  exact Option.ne_none_iff_isSome.mpr (get_messages_at_zero_isSome _ _)

/-- A call on a fresh instance whose predecessor count is 10 modulo `2^32`
(the 11th call, the `2^32 + 11`-th call, …) takes case 11 of the switch
and returns a batch. -/
lemma nth_call_eleven_mod (clock : Nat → Int) (k : Nat)
    (hk : (k - 1) % INT32_MOD = 10) :
    nth_call_result clock ⟨none, 0⟩ k ≠ none := by
  show (traffic_dummy_get_messages (clock k)
    (state_after clock ⟨none, 0⟩ (k - 1))).2 ≠ none
  rw [state_after_mod clock none 0 (by norm_num [INT32_MOD]) (k - 1),
    show ((0 + (k - 1)) % INT32_MOD : Nat) = 10 from by rw [Nat.zero_add, hk]]
  exact Option.ne_none_iff_isSome.mpr (get_messages_at_ten_isSome _ _)

/-- A call on a fresh instance whose incremented counter is neither 1 nor
11 as a signed 32-bit value takes the default branch and returns `NULL`. -/
lemma nth_call_none_mod (clock : Nat → Int) (k : Nat)
    (h1 : ¬ int32_val (((k - 1) % INT32_MOD + 1) % INT32_MOD) = 1)
    (h11 : ¬ int32_val (((k - 1) % INT32_MOD + 1) % INT32_MOD) = 11) :
    nth_call_result clock ⟨none, 0⟩ k = none := by
  show (traffic_dummy_get_messages (clock k)
    (state_after clock ⟨none, 0⟩ (k - 1))).2 = none
  rw [state_after_mod clock none 0 (by norm_num [INT32_MOD]) (k - 1)]
  apply get_messages_snd_default
  · show ¬ int32_val (((0 + (k - 1)) % INT32_MOD + 1) % INT32_MOD) = 1
    rw [Nat.zero_add]
    exact h1
  · show ¬ int32_val (((0 + (k - 1)) % INT32_MOD + 1) % INT32_MOD) = 11
    rw [Nat.zero_add]
    exact h11

/-- On a fresh instance, any call number `k` with `2 ≤ k`, `k ≠ 11` that
happens before the counter wraps lands in the default branch of the
switch and yields `NULL`. -/
lemma nth_call_fresh_none (clock : Nat → Int) (k : Nat) (h2 : 2 ≤ k)
    (h11 : k ≠ 11) (hw : k < 4294967296) :
    nth_call_result clock ⟨none, 0⟩ k = none := by
  show (traffic_dummy_get_messages (clock k)
    (state_after clock ⟨none, 0⟩ (k - 1))).2 = none
  rw [state_after_mod clock none 0 (by norm_num [INT32_MOD]) (k - 1)]
  have hs : (((0 + (k - 1)) % INT32_MOD : Nat) + 1) % INT32_MOD = k := by
    simp only [INT32_MOD]
    omega
  apply get_messages_snd_default
  · show ¬ int32_val (((0 + (k - 1)) % INT32_MOD + 1) % INT32_MOD) = 1
    rw [hs]
    unfold int32_val
    split <;> omega
  · show ¬ int32_val (((0 + (k - 1)) % INT32_MOD + 1) % INT32_MOD) = 11
    rw [hs]
    unfold int32_val
    split <;> omega

/-! ### Claim theorems -/

set_option maxRecDepth 16000
set_option maxHeartbeats 1000000

/-- C1: for a freshly created instance, the 1st invocation of the report
generator returns exactly two messages — an A9 queue-congestion event with
identifier "dummy:A9-68-67" and an A96 slow-traffic-congestion event with
identifier "dummy:A96-36b-38" — and for both, the first-received timestamp
equals the last-updated timestamp (both the clock value at call time) while
the expiration timestamp is that value plus 20. -/
theorem first_call_emits_initial_pair (clock : Nat → Int) (nav : navit)
    (attrs : List attr) (cbl : callback_list) :
    ∃ m0 m1,
      nth_call_result clock (traffic_dummy_new nav attrs cbl).1 1 =
        some [some m0, some m1, none] ∧
      m0.id = "dummy:A9-68-67" ∧
      m0.events = [(event_class.event_class_congestion,
        event_type.event_congestion_queue)] ∧
      m0.is_cancellation = false ∧
      m0.receive_time = clock 1 ∧ m0.update_time = clock 1 ∧
      m0.expiration_time = clock 1 + 20 ∧
      m1.id = "dummy:A96-36b-38" ∧
      m1.events = [(event_class.event_class_congestion,
        event_type.event_congestion_slow_traffic)] ∧
      m1.is_cancellation = false ∧
      m1.receive_time = clock 1 ∧ m1.update_time = clock 1 ∧
      m1.expiration_time = clock 1 + 20 :=
  ⟨_, _, rfl, rfl, rfl, rfl, rfl, rfl, rfl, rfl, rfl, rfl, rfl, rfl, rfl⟩

/-- C2: the 11th invocation on a fresh instance returns exactly two
messages — an update of the A9 event (same identifier and location as the
1st call's first message, first-received = now − 10, last-updated = now,
expiration = now + 10) and a cancellation of the A96 event (same identifier
and location as the 1st call's second message, same timestamp pattern,
no event classification). -/
theorem eleventh_call_emits_update_and_cancellation (clock : Nat → Int)
    (nav : navit) (attrs : List attr) (cbl : callback_list) :
    ∃ c0 c1 u0 u1,
      nth_call_result clock (traffic_dummy_new nav attrs cbl).1 1 =
        some [some c0, some c1, none] ∧
      nth_call_result clock (traffic_dummy_new nav attrs cbl).1 11 =
        some [some u0, some u1, none] ∧
      u0.id = "dummy:A9-68-67" ∧ u0.id = c0.id ∧ u0.location = c0.location ∧
      u0.is_cancellation = false ∧
      u0.events = [(event_class.event_class_congestion,
        event_type.event_congestion_queue)] ∧
      u0.receive_time = clock 11 - 10 ∧ u0.update_time = clock 11 ∧
      u0.expiration_time = clock 11 + 10 ∧
      u1.id = "dummy:A96-36b-38" ∧ u1.id = c1.id ∧ u1.location = c1.location ∧
      u1.is_cancellation = true ∧ u1.events = [] ∧
      u1.receive_time = clock 11 - 10 ∧ u1.update_time = clock 11 ∧
      u1.expiration_time = clock 11 + 10 := by
  rw [show (traffic_dummy_new nav attrs cbl).1 = ⟨none, 0⟩ from rfl,
    eleventh_call_fresh clock]
  exact ⟨_, _, _, _, rfl, rfl, rfl, rfl, rfl, rfl, rfl, rfl, rfl, rfl, rfl,
    rfl, rfl, rfl, rfl, rfl, rfl, rfl⟩

/-- C5: every non-absent batch the report generator returns is the two
messages followed by the `NULL` sentinel — a caller scanning from the
start reaches the sentinel after exactly two elements. -/
theorem batches_are_sentinel_terminated (now : Int) (p : traffic_priv) :
    (traffic_dummy_get_messages now p).2 = none ∨
    ∃ m0 m1,
      (traffic_dummy_get_messages now p).2 = some [some m0, some m1, none] := by
  simp only [traffic_dummy_get_messages]
  split
  · exact Or.inr ⟨_, _, rfl⟩
  · split
    · exact Or.inr ⟨_, _, rfl⟩
    · exact Or.inl rfl

/-- C6: every message emitted (1st and 11th call) references a location
whose from-point and to-point are exactly the fixed literals of its
highway segment — A9: Neufahrn (11.6208, 48.3164, "68", "12732-4") to
Allershausen (11.5893, 48.429, "67", "12732"); A96: Gräfelfing (11.4481,
48.1266, "36b", "12961-2") to München-Laim (11.5028, 48.1258, "38",
"12961"). -/
theorem emitted_locations_match_literals (clock : Nat → Int) (nav : navit)
    (attrs : List attr) (cbl : callback_list) :
    ∃ c0 c1 u0 u1,
      nth_call_result clock (traffic_dummy_new nav attrs cbl).1 1 =
        some [some c0, some c1, none] ∧
      nth_call_result clock (traffic_dummy_new nav attrs cbl).1 11 =
        some [some u0, some u1, none] ∧
      c0.location.from_point =
        traffic_point_new 11.6208 48.3164 "Neufahrn" "68" "12732-4" ∧
      c0.location.to_point =
        traffic_point_new 11.5893 48.429 "Allershausen" "67" "12732" ∧
      u0.location.from_point =
        traffic_point_new 11.6208 48.3164 "Neufahrn" "68" "12732-4" ∧
      u0.location.to_point =
        traffic_point_new 11.5893 48.429 "Allershausen" "67" "12732" ∧
      c1.location.from_point =
        traffic_point_new 11.4481 48.1266 "Gräfelfing" "36b" "12961-2" ∧
      c1.location.to_point =
        traffic_point_new 11.5028 48.1258 "München-Laim" "38" "12961" ∧
      u1.location.from_point =
        traffic_point_new 11.4481 48.1266 "Gräfelfing" "36b" "12961-2" ∧
      u1.location.to_point =
        traffic_point_new 11.5028 48.1258 "München-Laim" "38" "12961" := by
  rw [show (traffic_dummy_new nav attrs cbl).1 = ⟨none, 0⟩ from rfl,
    eleventh_call_fresh clock]
  exact ⟨_, _, _, _, rfl, rfl, rfl, rfl, rfl, rfl, rfl, rfl, rfl, rfl⟩

/-- C3 (amended): every invocation whose post-increment counter value
`n = k % 2^32` satisfies `n ≥ 2` and `n ≠ 11` returns the explicit absent
value (`NULL`), never an empty-but-present collection.  The claim's
"calls 12, 13, … return absent for every N, unconditionally, forever"
holds only until the 32-bit counter wraps: call numbers congruent to
1 or 11 modulo `2^32` emit batches again (see the counterexample). -/
theorem other_calls_return_null (clock : Nat → Int) (nav : navit)
    (attrs : List attr) (cbl : callback_list) (k : Nat)
    (h2 : 2 ≤ k % INT32_MOD) (h11 : k % INT32_MOD ≠ 11) :
    nth_call_result clock (traffic_dummy_new nav attrs cbl).1 k = none := by
  have key : (((k - 1) % INT32_MOD + 1) % INT32_MOD) = k % INT32_MOD := by
    simp only [INT32_MOD] at *
    omega
  refine nth_call_none_mod clock k ?_ ?_
  · rw [key]
    unfold int32_val
    simp only [INT32_MOD] at *
    split <;> omega
  · rw [key]
    unfold int32_val
    simp only [INT32_MOD] at *
    split <;> omega

/-- C3 witness: call 5 on a fresh instance is absent. -/
theorem other_calls_return_null_witness :
    2 ≤ 5 % INT32_MOD ∧ 5 % INT32_MOD ≠ 11 ∧
    nth_call_result (fun _ => 0)
      (traffic_dummy_new navit.mk [] callback_list.mk).1 5 = none :=
  ⟨by norm_num [INT32_MOD], by norm_num [INT32_MOD],
    other_calls_return_null (fun _ => 0) navit.mk [] callback_list.mk 5
      (by norm_num [INT32_MOD]) (by norm_num [INT32_MOD])⟩

/-- C3 counterexample: the claim "calls 12, 13, … return absent for every
N, unconditionally, forever" is false — the call numbered `2^32 + 1`, at
which the wrapped counter re-assumes the value 1, returns a batch. -/
theorem call_after_wrap_returns_messages :
    nth_call_result (fun _ => 0)
      (traffic_dummy_new navit.mk [] callback_list.mk).1
      (4294967296 + 1) ≠ none :=
  nth_call_one_mod (fun _ => 0) (4294967296 + 1) (by norm_num [INT32_MOD])

/-- C4: the call counter starts at 0 on creation and is incremented by
exactly 1 (modulo the 32-bit width) on every invocation before the branch
decision; after `k` invocations (`k < 2^32`, i.e. before the wrap) the
counter holds `k`, and it is the 11th call, not the 10th, that emits the
update/cancellation pair. -/
theorem counter_increments_and_branches (clock : Nat → Int) (nav : navit)
    (attrs : List attr) (cbl : callback_list) (now : Int) (p : traffic_priv)
    (k : Nat) (hk : k < 4294967296) :
    (traffic_dummy_get_messages now p).1.reports_requested =
      (p.reports_requested + 1) % INT32_MOD ∧
    (traffic_dummy_new nav attrs cbl).1.reports_requested = 0 ∧
    (state_after clock (traffic_dummy_new nav attrs cbl).1 k).reports_requested
      = k ∧
    nth_call_result clock (traffic_dummy_new nav attrs cbl).1 11 ≠ none ∧
    nth_call_result clock (traffic_dummy_new nav attrs cbl).1 10 = none := by
  refine ⟨by rw [get_messages_fst], rfl, ?_, ?_, ?_⟩
  · show (state_after clock ⟨none, 0⟩ k).reports_requested = k
    rw [state_after_mod clock none 0 (by norm_num [INT32_MOD]) k]
    simp only [INT32_MOD]
    omega
  · rw [show (traffic_dummy_new nav attrs cbl).1 = ⟨none, 0⟩ from rfl,
      eleventh_call_fresh clock]
    exact Option.ne_none_iff_isSome.mpr (get_messages_at_ten_isSome _ _)
  · rw [show (traffic_dummy_new nav attrs cbl).1 = ⟨none, 0⟩ from rfl]
    exact nth_call_fresh_none clock 10 (by norm_num) (by norm_num)
      (by norm_num)

/-- C4 witness: concrete instantiation at counter 5, `k = 11`. -/
theorem counter_increments_and_branches_witness :
    (11 : Nat) < 4294967296 ∧
    ((traffic_dummy_get_messages 0 ⟨none, 5⟩).1.reports_requested =
      (5 + 1) % INT32_MOD ∧
    (traffic_dummy_new navit.mk [] callback_list.mk).1.reports_requested = 0 ∧
    (state_after (fun _ => 0)
      (traffic_dummy_new navit.mk [] callback_list.mk).1 11).reports_requested
      = 11 ∧
    nth_call_result (fun _ => 0)
      (traffic_dummy_new navit.mk [] callback_list.mk).1 11 ≠ none ∧
    nth_call_result (fun _ => 0)
      (traffic_dummy_new navit.mk [] callback_list.mk).1 10 = none) :=
  ⟨by norm_num,
    counter_increments_and_branches (fun _ => 0) navit.mk [] callback_list.mk
      0 ⟨none, 5⟩ 11 (by norm_num)⟩

/-- C7: instance creation returns a zeroed state object (counter 0, navit
pointer left `NULL` by `g_new0`) and fills the output method table with
the report generator binding. -/
theorem create_returns_zeroed_instance (nav : navit) (attrs : List attr)
    (cbl : callback_list) :
    (traffic_dummy_new nav attrs cbl).1 =
      { nav := none, reports_requested := 0 } ∧
    (traffic_dummy_new nav attrs cbl).2 = traffic_dummy_meth ∧
    (traffic_dummy_new nav attrs cbl).2.get_messages =
      traffic_dummy_get_messages :=
  ⟨rfl, rfl, rfl⟩

/-- C8: plugin startup registers exactly one entry — the constructor
`traffic_dummy_new` under the name "dummy" — in the host's traffic-plugin
registry, leaving everything already registered untouched. -/
theorem plugin_init_registers_dummy (reg : traffic_registry) :
    plugin_init reg = ("dummy", traffic_dummy_new) :: reg := rfl

/-- C9: two independently created instances driven through the same call
sequence under the same clock produce identical per-call result sequences:
the freshly created states coincide and so does every call's result. -/
theorem independent_instances_yield_identical_sequences (clock : Nat → Int)
    (nav1 nav2 : navit) (a1 a2 : List attr) (cb1 cb2 : callback_list)
    (n : Nat) :
    (traffic_dummy_new nav1 a1 cb1).1 = (traffic_dummy_new nav2 a2 cb2).1 ∧
    ((List.range n).map fun k =>
      nth_call_result clock (traffic_dummy_new nav1 a1 cb1).1 (k + 1)) =
    ((List.range n).map fun k =>
      nth_call_result clock (traffic_dummy_new nav2 a2 cb2).1 (k + 1)) :=
  ⟨rfl, rfl⟩

/-- C10: the counter is a 32-bit machine integer incremented with
wrap-around semantics: after `k` calls it holds `k % 2^32`, and once it
wraps it re-assumes the values 1 and 11, at which point the generator
emits non-absent batches again (and returns to absent in between). -/
theorem counter_wraps_and_reemits (clock : Nat → Int) (nav : navit)
    (attrs : List attr) (cbl : callback_list) (k : Nat) :
    (state_after clock (traffic_dummy_new nav attrs cbl).1 k).reports_requested
      = k % INT32_MOD ∧
    nth_call_result clock (traffic_dummy_new nav attrs cbl).1
      (4294967296 + 1) ≠ none ∧
    nth_call_result clock (traffic_dummy_new nav attrs cbl).1
      (4294967296 + 11) ≠ none ∧
    nth_call_result clock (traffic_dummy_new nav attrs cbl).1
      (4294967296 + 12) = none := by
  refine ⟨?_, ?_, ?_, ?_⟩
  · show (state_after clock ⟨none, 0⟩ k).reports_requested = k % INT32_MOD
    rw [state_after_mod clock none 0 (by norm_num [INT32_MOD]) k]
    simp
  · exact nth_call_one_mod clock (4294967296 + 1) (by norm_num [INT32_MOD])
  · exact nth_call_eleven_mod clock (4294967296 + 11)
      (by norm_num [INT32_MOD])
  · exact nth_call_none_mod clock (4294967296 + 12)
      (by norm_num [INT32_MOD, int32_val])
      (by norm_num [INT32_MOD, int32_val])

end TrafficDummy
